import Mathlib

/-!
Verification of the `shared-component-builder` library
(`src/component-builder.js`) against its natural-language specification.

The JavaScript source is shallowly embedded:

* JS objects / `Map`s are association lists `List (String × JSVal)` with
  first-match lookup and insert-or-overwrite update, preserving insertion
  order (the order `Object.entries` exposes).
* A live render function — in this library always an arrow function
  `(props, state) => `...`` whose body is a single template literal, as in
  the README, the tests and the bundled example — is embedded as the AST of
  that template-literal body (`TPart` parts), from which both its behaviour
  (`renderTmpl`) and its `Function.prototype.toString` source text
  (`templateToString`) are derived.
* `new Function('props','state', "return `" ++ escaped ++ "`")`, used by
  `registerFromData`, is embedded by keeping the raw template-literal
  content and evaluating it with an explicit template-literal evaluator
  (`evalTL`) that handles backslash escapes and the `${props.K}` /
  `${state.K}` interpolations these components use.
* Machine timestamps (`Date.now()`) are an explicit logical-time argument.
* `fetch` and `JSON.parse` are external collaborators, passed as function
  arguments; every issued network request is recorded in an explicit trace
  so "no network call was attempted" is a statement about that trace.
-/

/-- Association-list lookup: first binding wins, `none` when absent.
Models JS object property access / `Map.prototype.get`. -/
def lookupKV {α : Type} (m : List (String × α)) (k : String) : Option α :=
  match m with
  | [] => none
  | (k2, v) :: rest => if k2 = k then some v else lookupKV rest k

/-- Association-list insert-or-overwrite keeping insertion order.
Models JS object property assignment / `Map.prototype.set`. -/
def setKV {α : Type} (m : List (String × α)) (k : String) (v : α) : List (String × α) :=
  match m with
  | [] => [(k, v)]
  | (k2, v2) :: rest => if k2 = k then (k, v) :: rest else (k2, v2) :: setKV rest k v

/-- Spread `\x7b ...base, ...extras \x7d`: later keys overwrite earlier ones. -/
def spreadInto {α : Type} (base extras : List (String × α)) : List (String × α) :=
  extras.foldl (fun m kv => setKV m kv.1 kv.2) base

/-- String prefix test; models `String.prototype.startsWith`. -/
def strStartsWith (s pre : String) : Bool := pre.data.isPrefixOf s.data

/-- Key/value map of strings (props, state, serialized methods). -/
abbrev StrMap := List (String × String)

/-- Evaluating `$\x7bm.k\x7d` in a template literal: a missing key is the JS
value `undefined`, which stringifies to `"undefined"`. -/
def jsLookup (m : StrMap) (k : String) : String :=
  match lookupKV m k with
  | some v => v
  | none => "undefined"

/-- One part of a template-literal body: literal text, a `$\x7bprops.K\x7d`
interpolation, or a `$\x7bstate.K\x7d` interpolation. -/
inductive TPart where
  | lit (s : String)
  | propRef (k : String)
  | stateRef (k : String)
  deriving Repr, DecidableEq

/-- Behaviour of the live template function `(props, state) => `body``:
concatenate the literal parts with the interpolated values. -/
def renderTmpl (t : List TPart) (p st : StrMap) : String :=
  String.join (t.map fun part =>
    match part with
    | .lit s => s
    | .propRef k => jsLookup p k
    | .stateRef k => jsLookup st k)

/-- Source text of a template-literal body, as it appears between the
backticks of the original function. -/
def tmplBody (t : List TPart) : String :=
  String.join (t.map fun part =>
    match part with
    | .lit s => s
    | .propRef k => "$\x7bprops." ++ k ++ "\x7d"
    | .stateRef k => "$\x7bstate." ++ k ++ "\x7d")

/-- Result of `Function.prototype.toString` on the live template function
`(props, state) => `body``, as `define` stores it (line 34 of the source). -/
def templateToString (t : List TPart) : String :=
  "(props, state) => `" ++ tmplBody t ++ "`"

/-- The backtick character. -/
def backtick : Char := Char.ofNat 96

/-- The backslash character. -/
def bslash : Char := Char.ofNat 92

/-- The left-brace character. -/
def lbrace : Char := Char.ofNat 123

/-- The right-brace character. -/
def rbrace : Char := Char.ofNat 125

/-- Models `componentData.template.replace(/`/g, '\\`')` from
`registerFromData` (line 342): prefix every backtick with a backslash. -/
def escapeBTAux : List Char → List Char
  | [] => []
  | c :: rest =>
    if c = backtick then bslash :: c :: escapeBTAux rest
    else c :: escapeBTAux rest

/-- String form of `escapeBTAux`. -/
def escapeBT (s : String) : String := String.mk (escapeBTAux s.data)

/-- Evaluating the JS expression found between `$\x7b` and `\x7d` of a
template literal, with `props` and `state` in scope.  The expressions this
library's components use are `props.K` and `state.K`; any other expression
is modelled as evaluating to `undefined`. -/
def evalExpr (cs : List Char) (p st : StrMap) : String :=
  if ("props.").data.isPrefixOf cs then jsLookup p (String.mk (cs.drop 6))
  else if ("state.").data.isPrefixOf cs then jsLookup st (String.mk (cs.drop 6))
  else "undefined"

/-- Fuelled template-literal evaluator: `\c` escapes to `c`, `$\x7bE\x7d`
evaluates `E` via `evalExpr`, every other character is literal text. -/
def evalTLAux : Nat → List Char → StrMap → StrMap → List Char
  | 0, _, _, _ => []
  | _ + 1, [], _, _ => []
  | fuel + 1, c :: rest, p, st =>
    if c = bslash then
      match rest with
      | [] => [c]
      | c2 :: rest2 => c2 :: evalTLAux fuel rest2 p st
    else if c = '$' then
      match rest with
      | [] => [c]
      | c2 :: rest2 =>
        if c2 = lbrace then
          let expr := rest2.takeWhile (fun d => d ≠ rbrace)
          let rest3 := (rest2.dropWhile (fun d => d ≠ rbrace)).drop 1
          (evalExpr expr p st).data ++ evalTLAux fuel rest3 p st
        else c :: evalTLAux fuel (c2 :: rest2) p st
    else c :: evalTLAux fuel rest p st

/-- Evaluate a string as the raw content of a JS template literal, with
`props` and `state` in scope. -/
def evalTL (s : String) (p st : StrMap) : String :=
  String.mk (evalTLAux (s.data.length + 1) s.data p st)

/-- JS `\w` character class: `[A-Za-z0-9_]`. -/
def wordChar (c : Char) : Bool := c.isAlpha || c.isDigit || c = '_'

/-- Scanner for the global regex replace
`str.replace(/(^\w|-\w)/g, m => m.replace('-','').toUpperCase())` past the
first position: a hyphen followed by a word character is replaced by the
upper-cased character; everything else is copied. -/
def pcTail : List Char → List Char
  | [] => []
  | c :: rest =>
    if c = '-' then
      match rest with
      | [] => ['-']
      | c2 :: rest2 =>
        if wordChar c2 then c2.toUpper :: pcTail rest2
        else '-' :: pcTail (c2 :: rest2)
    else c :: pcTail rest

/-- Start of the scan: `^\w` additionally upper-cases a leading word
character. -/
def pcStart : List Char → List Char
  | [] => []
  | c :: rest =>
    if wordChar c then c.toUpper :: pcTail rest
    else pcTail (c :: rest)

/-- Model of `ComponentBuilder.toPascalCase` (source lines 279-283). -/
def toPascalCase (s : String) : String := String.mk (pcStart s.data)

/-- Upper-case the first character of a segment. -/
def capFirst : List Char → List Char
  | [] => []
  | c :: rest => c.toUpper :: rest

/-- Split a character list on hyphens, the way `String.prototype.split('-')`
does: `n` hyphens yield `n + 1` (possibly empty) segments. -/
def splitOnHyphen : List Char → List (List Char)
  | [] => [[]]
  | c :: rest =>
    match splitOnHyphen rest with
    | [] => [[]]
    | seg :: segs => if c = '-' then [] :: seg :: segs else (c :: seg) :: segs

/-- Modelled from the spec's words for the name-to-identifier derivation:
split the name on hyphens, upper-case the first letter of each segment,
concatenate.  Stated separately from `toPascalCase` (which models the
source's regex) so the two can be compared. -/
def pascalSpec (s : String) : String :=
  String.mk (List.flatten ((splitOnHyphen s.data).map capFirst))

/-- Export options: the `type` field is the only one the code reads
(`options.type === 'script'` / `'cloud'`). -/
structure ExportOpts where
  type : Option String
  deriving Repr, DecidableEq

/-- A JS value as it occurs in this library's definition objects and
component records: a string, a number, an array of strings (`props`,
`events`), a string-valued map (serialized `methods`, `initialState`), a
map of live method functions (each modelled by its
`Function.prototype.toString` source text), a live template function
(modelled by its template-literal-body AST), or an export-options object. -/
inductive JSVal where
  | str (s : String)
  | num (n : Int)
  | strList (l : List String)
  | strMap (m : StrMap)
  | fnMap (m : StrMap)
  | tmpl (t : List TPart)
  | exOpts (o : ExportOpts)
  deriving Repr, DecidableEq

/-- A JS object with the value model above; used for the `definition`
argument of `define` and for serialized component records. -/
abbrev RecordMap := List (String × JSVal)

/-- JS truthiness of the embedded values: the empty string and 0 are falsy,
arrays and objects (even empty ones) are truthy. -/
def jsTruthy : JSVal → Bool
  | .str s => s ≠ ""
  | .num n => n ≠ 0
  | .strList _ => true
  | .strMap _ => true
  | .fnMap _ => true
  | .tmpl _ => true
  | .exOpts _ => true

/-- Models `a || b` where `a` is an (possibly absent) object property:
`undefined` and falsy values fall through to the default. -/
def jsOr (v : Option JSVal) (dflt : JSVal) : JSVal :=
  match v with
  | some x => if jsTruthy x then x else dflt
  | none => dflt

/-- JS `String(v)` / `v.toString()` on the embedded values. -/
def jsToString : JSVal → String
  | .str s => s
  | .num n => toString n
  | .strList l => String.intercalate "," l
  | .strMap _ => "[object Object]"
  | .fnMap _ => "[object Object]"
  | .tmpl t => templateToString t
  | .exOpts _ => "[object Object]"

/-- The template slot of a live definition as the Element Adapter sees it:
the original function (`define` path), a function built by
`new Function('props','state', 'return `...`')` from escaped record text
(`registerFromData` path, keeping the raw template-literal content), or a
non-function value whose invocation would throw. -/
inductive TemplateVal where
  | ast (t : List TPart)
  | compiled (raw : String)
  | notAFunction
  deriving Repr, DecidableEq

/-- Calling `template.call(this, props, state)` on the template slot. -/
def callTemplate : TemplateVal → StrMap → StrMap → Except String String
  | .ast t, p, st => .ok (renderTmpl t p st)
  | .compiled raw, p, st => .ok (evalTL raw p st)
  | .notAFunction, _, _ => .error "TypeError: definition.template.call is not a function"

/-- The live definition a generated element class closes over: observed
props, the template slot, styles, the custom methods attached to the
prototype (name to source text), and the initial state seed. -/
structure LiveDefn where
  props : List String
  template : TemplateVal
  styles : String
  methods : StrMap
  initialState : StrMap
  deriving Repr, DecidableEq

/-- Combined mutable state of one execution context: the builder's
Definition Store (`this.registry`) and the rendering target's element
registry (`customElements`), each keyed by component name. -/
structure BuilderState where
  registry : List (String × RecordMap)
  elements : List (String × LiveDefn)
  deriving Repr, DecidableEq

/-- A context with nothing defined or registered. -/
def emptyState : BuilderState := { registry := [], elements := [] }

/-- Model of `ComponentBuilder.registerWebComponent` (source lines
192-248): a name already present in the element registry returns at once
with no effect; otherwise the generated class closing over the definition
is registered under the name. -/
def registerWebComponent (name : String) (defn : LiveDefn) (s : BuilderState) : BuilderState :=
  if (lookupKV s.elements name).isSome then s
  else { s with elements := s.elements ++ [(name, defn)] }

/-- The live definition object `define` hands to `registerWebComponent`,
read off the caller-supplied definition: `definition.props || []`, the
template value, `definition.styles`, `definition.methods`,
`definition.initialState || \x7b\x7d`. -/
def liveDefnOf (defn : RecordMap) : LiveDefn :=
  { props := match lookupKV defn "props" with
             | some (.strList l) => l
             | _ => []
    template := match lookupKV defn "template" with
                | some (.tmpl t) => .ast t
                | _ => .notAFunction
    styles := match lookupKV defn "styles" with
              | some (.str s) => s
              | _ => ""
    methods := match lookupKV defn "methods" with
               | some (.fnMap m) => m
               | _ => []
    initialState := match lookupKV defn "initialState" with
                    | some (.strMap m) => m
                    | _ => [] }

/-- Model of `ComponentBuilder.serializeMethods` (source lines 255-261):
`toString` on each method function value.  A live method function is
already modelled by its source text, so serialization maps each entry to
that text. -/
def serializeMethods (m : StrMap) : StrMap := m.map (fun kv => (kv.1, kv.2))

/-- The keys `define` filters out of the spread of the caller's definition
(source line 40).  Note `name` and `created` are not in this list. -/
def reservedSpreadKeys : List String :=
  ["version", "props", "template", "styles", "methods", "events"]

/-- Model of `ComponentBuilder.define` (source lines 27-48) at logical time
`now`.  Reading `definition.template.toString()` with no `template` key
throws before any state is touched; otherwise the record is assembled,
stored in the Definition Store, and the component is auto-registered.
Returns the produced record and the successor state (the input state when
the call throws). -/
def defineOp (name : String) (defn : RecordMap) (now : Int) (s : BuilderState) :
    Except String RecordMap × BuilderState :=
  let serializedMethods : StrMap :=
    match lookupKV defn "methods" with
    | some v => if jsTruthy v then
                  match v with
                  | .fnMap m => serializeMethods m
                  | _ => []
                else []
    | none => []
  match lookupKV defn "template" with
  | none => (.error "TypeError: Cannot read properties of undefined (reading toString)", s)
  | some tv =>
    let componentDef : RecordMap :=
      spreadInto
        [ ("name", .str name),
          ("version", jsOr (lookupKV defn "version") (.str "1.0.0")),
          ("props", jsOr (lookupKV defn "props") (.strList [])),
          ("template", .str (jsToString tv)),
          ("styles", jsOr (lookupKV defn "styles") (.str "")),
          ("methods", .strMap serializedMethods),
          ("events", jsOr (lookupKV defn "events") (.strList [])),
          ("created", .num now) ]
        (defn.filter (fun kv => !(reservedSpreadKeys.contains kv.1)))
    let s1 : BuilderState := { s with registry := setKV s.registry name componentDef }
    let s2 := registerWebComponent name (liveDefnOf defn) s1
    (.ok componentDef, s2)

/-- Props of a record: `componentData.props` where an array is expected
(`undefined` behaves as missing and downstream uses default it to `[]`). -/
def recProps (r : RecordMap) : List String :=
  match lookupKV r "props" with
  | some (.strList l) => l
  | _ => []

/-- String field of a record, `""` when absent. -/
def recStr (r : RecordMap) (k : String) : String :=
  match lookupKV r k with
  | some (.str s) => s
  | _ => ""

/-- Models `new Function('return ' + src)()`, the method rehydration of
`registerFromData` (line 351).  On this library's data a method source is a
function expression — `function ...` or an arrow `... => ...` — and
evaluates to the callable it denotes (a callable is modelled by its source
text); any other text, e.g. the `name() \x7b ... \x7d` shorthand form, makes the
constructed body fail to parse and the constructor throw.
`containsArrow` detects an arrow `=>` anywhere in the text. -/
def containsArrow : List Char → Bool
  | [] => false
  | c :: rest =>
    match rest with
    | [] => false
    | c2 :: _ => (c = '=' && c2 = '>') || containsArrow rest

def evalFunctionExpr (src : String) : Except String String :=
  if strStartsWith src "function" || containsArrow src.data then .ok src
  else .error ("SyntaxError in method source: " ++ src)

/-- The `Object.keys(componentData.methods).forEach` loop of
`registerFromData` (lines 349-353): rehydrate each method in order,
propagating the first failure. -/
def compileMethods : StrMap → Except String StrMap
  | [] => .ok []
  | (k, src) :: rest => do
    let f ← evalFunctionExpr src
    let r ← compileMethods rest
    .ok ((k, f) :: r)

/-- Model of `ComponentBuilder.registerFromData` (source lines 339-359),
called with the default empty `options` as every claim does.  The template
text is backtick-escaped and wrapped in a template literal by
`new Function('props','state', 'return `...`')` — a construction that
accepts the text verbatim (for the backtick-escaped text this library
produces, free of stray `$\x7b`, the constructor never throws).  Methods are
rehydrated next; only then is the element registered and the record stored,
so a thrown method rehydration leaves the state untouched. -/
def registerFromData (r : RecordMap) (s : BuilderState) :
    Except String (String × BuilderState) := do
  let tsrc ← match lookupKV r "template" with
             | some (.str t) => Except.ok t
             | some _ => Except.error "TypeError: componentData.template.replace is not a function"
             | none => Except.error "TypeError: Cannot read properties of undefined (reading replace)"
  let compiled ← compileMethods (match lookupKV r "methods" with
                                 | some (.strMap m) => m
                                 | _ => [])
  let defn : LiveDefn :=
    { props := recProps r
      template := .compiled (escapeBT tsrc)
      styles := recStr r "styles"
      methods := compiled
      initialState := [] }
  let name := match lookupKV r "name" with
              | some (.str n) => n
              | _ => "undefined"
  let s1 := registerWebComponent name defn s
  let s2 : BuilderState := { s1 with registry := setKV s1.registry name r }
  Except.ok (name, s2)

/-- Builder configuration (`this.config`): the fields the code reads. -/
structure Config where
  apiEndpoint : Option String
  localRegistry : Bool
  deriving Repr, DecidableEq

/-- One HTTP request issued through `fetch`. -/
structure NetCall where
  url : String
  method : String
  body : Option RecordMap
  deriving Repr, DecidableEq

/-- JSON text of a string array, as `JSON.stringify` renders `props`. -/
def jsonStrList (l : List String) : String :=
  "[" ++ String.intercalate "," (l.map (fun p => "\"" ++ p ++ "\"")) ++ "]"

/-- Model of `ComponentBuilder.generateMethodsCode` (source lines 268-272). -/
def generateMethodsCode (methods : StrMap) : String :=
  String.intercalate "\n    " (methods.map (fun kv => kv.1 ++ "() \x7b " ++ kv.2 ++ " \x7d"))

/-- Model of `ComponentBuilder.generateScript` (source lines 125-185): the
standalone self-registering script text for a component record. -/
def generateScript (componentData : RecordMap) : String :=
  let name := recStr componentData "name"
  let pname := toPascalCase name
  let props := jsonStrList (recProps componentData)
  "\n// Generated component script for " ++ name ++
  "\n(function() \x7b\n  'use strict';\n  \n  if (customElements.get('" ++ name ++
  "')) \x7b\n    console.warn('Component " ++ name ++
  " already registered');\n    return;\n  \x7d\n\n  class " ++ pname ++
  " extends HTMLElement \x7b\n    constructor() \x7b\n      super();\n      this.attachShadow(\x7b mode: 'open' \x7d);\n      this.props = \x7b\x7d;\n      this.state = \x7b\x7d;\n    \x7d\n\n    static get observedAttributes() \x7b\n      return " ++
  props ++
  ";\n    \x7d\n\n    connectedCallback() \x7b\n      this.updateProps();\n      this.render();\n    \x7d\n\n    attributeChangedCallback(name, oldValue, newValue) \x7b\n      if (oldValue !== newValue) \x7b\n        this.props[name] = newValue;\n        this.render();\n      \x7d\n    \x7d\n\n    updateProps() \x7b\n      " ++
  props ++
  ".forEach(prop => \x7b\n        this.props[prop] = this.getAttribute(prop) || '';\n      \x7d);\n    \x7d\n\n    render() \x7b\n      const template = " ++
  recStr componentData "template" ++
  ";\n      const html = template.call(this, this.props, this.state);\n      const styles = `" ++
  recStr componentData "styles" ++
  "`;\n      this.shadowRoot.innerHTML = styles ? `<style>$\x7bstyles\x7d</style>$\x7bhtml\x7d` : html;\n    \x7d\n\n    " ++
  generateMethodsCode (match lookupKV componentData "methods" with
                       | some (.strMap m) => m
                       | _ => []) ++
  "\n  \x7d\n\n  customElements.define('" ++ name ++ "', " ++ pname ++
  ");\n  \n  // Expose for manual instantiation\n  window." ++ pname ++ " = " ++ pname ++
  ";\n\x7d)();\n\n// Usage instructions:\n// <" ++ name ++ " " ++
  String.intercalate " " ((recProps componentData).map (fun p => p ++ "=\"value\"")) ++
  "></" ++ name ++ ">\n"

/-- Model of `ComponentBuilder.generateUsageInstructions` (source lines
290-298).  The code re-reads the registry; `export` only calls it for a
name it has just found there (an absent name would throw in JS, modelled as
the empty string). -/
def generateUsageInstructions (s : BuilderState) (name : String) : String :=
  match lookupKV s.registry name with
  | some c =>
    "\nUsage Instructions:\n1. Copy the generated script to Project B\n2. Include it in your HTML: <script src=\"path/to/" ++
    name ++ ".js\"></script>\n3. Use the component: <" ++ name ++ " " ++
    String.intercalate " " ((recProps c).map (fun p => p ++ "=\"value\"")) ++
    "></" ++ name ++ ">\n"
  | none => ""

/-- Result of `export`: a standalone script, the tagged JSON envelope, or
the cloud collaborator's acknowledgment. -/
inductive ExportResult where
  | script (code : String)
  | json (data : RecordMap) (usage : String)
  | cloud (resp : RecordMap)
  deriving Repr, DecidableEq

/-- The export stamp `\x7b ...component, exportedAt, exportOptions \x7d`
(source lines 62-66). -/
def exportStamp (r : RecordMap) (now : Int) (opts : ExportOpts) : RecordMap :=
  spreadInto r [("exportedAt", .num now), ("exportOptions", .exOpts opts)]

/-- Model of `ComponentBuilder.export` (source lines 56-87) at logical time
`now`.  `net` is the network collaborator (the parsed JSON of each
response); the second component of the result is the trace of issued
requests, so an empty trace states that no network call was attempted. -/
def exportOp (cfg : Config) (s : BuilderState) (name : String) (opts : ExportOpts)
    (now : Int) (net : NetCall → RecordMap) : Except String ExportResult × List NetCall :=
  match lookupKV s.registry name with
  | none => (.error ("Component " ++ name ++ " not found"), [])
  | some component =>
    let exportData := exportStamp component now opts
    if opts.type = some "script" then
      (.ok (.script (generateScript exportData)), [])
    else if opts.type = some "cloud" then
      match cfg.apiEndpoint with
      | none => (.error "API endpoint not configured", [])
      | some ep =>
        let call : NetCall := { url := ep ++ "/components", method := "POST", body := some exportData }
        (.ok (.cloud (net call)), [call])
    else
      (.ok (.json exportData (generateUsageInstructions s name)), [])

/-- An `import` source: a direct record object, or a string (URL, JSON
text, or bare cloud name, distinguished by prefix sniffing). -/
inductive ImportSource where
  | obj (r : RecordMap)
  | txt (s : String)
  deriving Repr, DecidableEq

/-- Model of `ComponentBuilder.import` (source lines 95-118).  `parse` is
the host's `JSON.parse` and `net` the network collaborator; the last
component of the result is the trace of issued requests.  On a thrown
reconstruction the state component is the untouched input state. -/
def importOp (cfg : Config) (s : BuilderState) (src : ImportSource)
    (parse : String → RecordMap) (net : NetCall → RecordMap) :
    Except String String × BuilderState × List NetCall :=
  match src with
  | .obj r =>
    match registerFromData r s with
    | .ok (nm, s2) => (.ok nm, s2, [])
    | .error e => (.error e, s, [])
  | .txt t =>
    if strStartsWith t "http" then
      let call : NetCall := { url := t, method := "GET", body := none }
      match registerFromData (net call) s with
      | .ok (nm, s2) => (.ok nm, s2, [call])
      | .error e => (.error e, s, [call])
    else if strStartsWith t "\x7b" then
      match registerFromData (parse t) s with
      | .ok (nm, s2) => (.ok nm, s2, [])
      | .error e => (.error e, s, [])
    else
      match cfg.apiEndpoint with
      | none => (.error "API endpoint not configured", s, [])
      | some ep =>
        let call : NetCall := { url := ep ++ "/components/" ++ t, method := "GET", body := none }
        match registerFromData (net call) s with
        | .ok (nm, s2) => (.ok nm, s2, [call])
        | .error e => (.error e, s, [call])

/-- One mounted element instance of a generated component class: the
definition the class closed over, the `this.props` and `this.state` maps,
the shadow-root content, and a trace counter of `render()` invocations
(each invocation is one full content replacement). -/
structure ElementInst where
  defn : LiveDefn
  props : StrMap
  state : StrMap
  shadowHTML : String
  renderCount : Nat
  deriving Repr, DecidableEq

/-- Model of `GeneratedComponent.render` (source lines 228-232): full
replacement of the shadow-root content by the style block (when `styles` is
truthy) followed by the template's markup. -/
def renderInst (e : ElementInst) : Except String ElementInst := do
  let html ← callTemplate e.defn.template e.props e.state
  let styles := if e.defn.styles ≠ "" then "<style>" ++ e.defn.styles ++ "</style>" else ""
  Except.ok { e with shadowHTML := styles ++ html, renderCount := e.renderCount + 1 }

/-- Model of `GeneratedComponent.attributeChangedCallback` (source lines
215-220): when the new value differs from the old, the prop is updated and
the element re-rendered; otherwise nothing happens. -/
def attributeChangedCallback (e : ElementInst) (nm oldV newV : String) :
    Except String ElementInst :=
  if oldV ≠ newV then renderInst { e with props := setKV e.props nm newV }
  else Except.ok e

/-- Model of `GeneratedComponent.setState` (source lines 234-237): shallow
merge, then re-render. -/
def setStateInst (e : ElementInst) (newState : StrMap) : Except String ElementInst :=
  renderInst { e with state := spreadInto e.state newState }

/-- The element class the generated standalone script defines, holding the
record fields the script inlines as literal code. -/
structure ScriptClass where
  name : String
  props : List String
  templateSrc : String
  styles : String
  methods : StrMap
  deriving Repr, DecidableEq

/-- The context a generated script runs in: the rendering target's element
registry, the `window` globals the script assigns, and the console-warning
log. -/
structure ScriptCtx where
  elements : List (String × ScriptClass)
  globals : List (String × ScriptClass)
  warnings : List String
  deriving Repr, DecidableEq

/-- The class the script for `componentData` would define. -/
def scriptClassOf (r : RecordMap) : ScriptClass :=
  { name := recStr r "name"
    props := recProps r
    templateSrc := recStr r "template"
    styles := recStr r "styles"
    methods := match lookupKV r "methods" with
               | some (.strMap m) => m
               | _ => [] }

/-- Execution model of the script `generateScript` emits (source lines
126-184): when the name is already registered the script warns and returns
with no other effect; otherwise it defines the element class and exposes
the constructor as `window.<PascalName>`. -/
def runGeneratedScript (r : RecordMap) (ctx : ScriptCtx) : ScriptCtx :=
  let name := recStr r "name"
  if (lookupKV ctx.elements name).isSome then
    { ctx with warnings := ctx.warnings ++ ["Component " ++ name ++ " already registered"] }
  else
    let cls := scriptClassOf r
    { ctx with elements := ctx.elements ++ [(name, cls)],
               globals := setKV ctx.globals (toPascalCase name) cls }


/-- Decidable equality for `Except`, so concrete runs of the embedded
operations can be checked by `decide`. -/
instance {e a : Type} [DecidableEq e] [DecidableEq a] : DecidableEq (Except e a) := fun x y =>
  match x, y with
  | .ok v, .ok w =>
    if h : v = w then .isTrue (by rw [h]) else .isFalse (by intro hc; cases hc; exact h rfl)
  | .error v, .error w =>
    if h : v = w then .isTrue (by rw [h]) else .isFalse (by intro hc; cases hc; exact h rfl)
  | .ok _, .error _ => .isFalse (by intro hc; cases hc)
  | .error _, .ok _ => .isFalse (by intro hc; cases hc)

/-- The live template of the round-trip demonstration:
`(props, state) => `<div>$\x7bprops.title\x7d</div>``. -/
def c1Tmpl : List TPart := [.lit "<div>", .propRef "title", .lit "</div>"]

/-- A definition with that template, empty styles and no methods. -/
def c1Defn : RecordMap := [("template", .tmpl c1Tmpl)]

/-- The record `define` produces for `c1Defn` at logical time 1000. -/
def c1Record : RecordMap :=
  [("name", .str "demo-card"), ("version", .str "1.0.0"), ("props", .strList []),
   ("template", .str "(props, state) => `<div>$\x7bprops.title\x7d</div>`"),
   ("styles", .str ""), ("methods", .strMap []), ("events", .strList []),
   ("created", .num 1000)]

/-- The context after `define` ran: record stored, original class registered. -/
def c1StateA : BuilderState :=
  { registry := [("demo-card", c1Record)],
    elements := [("demo-card",
      { props := [], template := .ast c1Tmpl, styles := "", methods := [], initialState := [] })] }

/-- The reconstructed class of the second context: the template slot holds
the backtick-escaped source text as raw template-literal content. -/
def c1Live : LiveDefn :=
  { props := [], template := .compiled "(props, state) => \\`<div>$\x7bprops.title\x7d</div>\\`",
    styles := "", methods := [], initialState := [] }

/-- The second (importing) context after `registerFromData` ran. -/
def c1StateB : BuilderState :=
  { registry := [("demo-card", c1Record)], elements := [("demo-card", c1Live)] }

/-- C1 (code_bug): the serialize/reconstruct round trip does not preserve
the template's rendered output.  `define` stores the full function source
`(props, state) => `...``, but `registerFromData` embeds that text as the
content of a fresh template literal, so the reconstructed template applied
to `props = \x7btitle: "A"\x7d` returns the source text with the
interpolation substituted — `(props, state) => `<div>A</div>`` — instead of
the original output `<div>A</div>`. -/
theorem claim1_roundtrip_template_diverges :
    defineOp "demo-card" c1Defn 1000 emptyState = (Except.ok c1Record, c1StateA) ∧
    registerFromData c1Record emptyState = Except.ok ("demo-card", c1StateB) ∧
    lookupKV c1StateB.elements "demo-card" = some c1Live ∧
    callTemplate (liveDefnOf c1Defn).template [("title", "A")] [] =
      Except.ok "<div>A</div>" ∧
    callTemplate c1Live.template [("title", "A")] [] =
      Except.ok "(props, state) => `<div>A</div>`" ∧
    ("(props, state) => `<div>A</div>`" : String) ≠ "<div>A</div>" := by
  decide

/-- A serialized record whose `template` field is not valid function-source
text. -/
def c2Record : RecordMap :=
  [("name", .str "bad-comp"), ("version", .str "1.0.0"), ("props", .strList []),
   ("template", .str "this is not a function"), ("styles", .str ""),
   ("methods", .strMap []), ("events", .strList []), ("created", .num 0)]

/-- The broken class `registerFromData` nevertheless registers for it. -/
def c2Live : LiveDefn :=
  { props := [], template := .compiled "this is not a function",
    styles := "", methods := [], initialState := [] }

/-- The context after importing the malformed record. -/
def c2State : BuilderState :=
  { registry := [("bad-comp", c2Record)], elements := [("bad-comp", c2Live)] }

/-- C2 (code_bug): reconstruction of a record whose `template` is malformed
does not fail at all.  The text is embedded as the content of a template
literal, so `new Function` accepts it; `registerFromData` succeeds, the
element is registered and the record stored, and the registered renderer
silently emits the malformed text itself.  (The model's own function-source
check classifies the text as unparseable, as the last conjunct records.)
No `MalformedBehaviorError` reaches the caller of `import`. -/
theorem claim2_malformed_template_registers :
    registerFromData c2Record emptyState = Except.ok ("bad-comp", c2State) ∧
    importOp { apiEndpoint := none, localRegistry := true } emptyState
        (.obj c2Record) (fun _ => []) (fun _ => []) =
      (Except.ok "bad-comp", c2State, []) ∧
    lookupKV c2State.elements "bad-comp" = some c2Live ∧
    lookupKV c2State.registry "bad-comp" = some c2Record ∧
    callTemplate c2Live.template [] [] = Except.ok "this is not a function" ∧
    evalFunctionExpr "this is not a function" =
      Except.error "SyntaxError in method source: this is not a function" := by
  decide

/-- A definition that supplies, besides its template, a `created` key and a
genuine extension key. -/
def c4Defn : RecordMap :=
  [("template", .tmpl [.lit "hi"]), ("created", .num 42), ("customFlag", .str "yes")]

/-- The record `define` produces for `c4Defn` at logical time 1000: the
supplied `created` key has overwritten the stamp. -/
def c4Record : RecordMap :=
  [("name", .str "x-comp"), ("version", .str "1.0.0"), ("props", .strList []),
   ("template", .str "(props, state) => `hi`"), ("styles", .str ""),
   ("methods", .strMap []), ("events", .strList []), ("created", .num 42),
   ("customFlag", .str "yes")]

/-- The context after that `define` call. -/
def c4State : BuilderState :=
  { registry := [("x-comp", c4Record)],
    elements := [("x-comp",
      { props := [], template := .ast [.lit "hi"], styles := "", methods := [],
        initialState := [] })] }

/-- C4 (code_bug): the spread filter of `define` (source line 40) excludes
only `version, props, template, styles, methods, events` — not `name` or
`created` — and the spread comes after the stamped fields, so a supplied
`created` key overwrites the logical-time stamp.  At logical time 1000 the
produced record's `created` is 42, not 1000 (while the genuine extension
key `customFlag` is carried verbatim, as claimed). -/
theorem claim4_created_overwritten :
    defineOp "x-comp" c4Defn 1000 emptyState = (Except.ok c4Record, c4State) ∧
    lookupKV c4Record "created" = some (.num 42) ∧
    lookupKV c4Record "customFlag" = some (.str "yes") ∧
    lookupKV c4Record "created" ≠ some (.num 1000) := by
  decide

/-- C3 (confirmed): re-registering a name already present in the element
registry is a no-op.  Through `define`/`import` the guard in
`registerWebComponent` (source line 193) returns with the whole context
unchanged, so the previously registered class survives and no error is
raised; the generated standalone script's guard (source lines 131-134)
appends one console warning and changes nothing else — neither the element
registry nor the window globals. -/
theorem claim3_second_registration_noop
    (name : String) (d : LiveDefn) (s : BuilderState) (r : RecordMap) (ctx : ScriptCtx)
    (h1 : (lookupKV s.elements name).isSome)
    (h2 : (lookupKV ctx.elements (recStr r "name")).isSome) :
    registerWebComponent name d s = s ∧
    runGeneratedScript r ctx =
      { ctx with warnings :=
          ctx.warnings ++ ["Component " ++ recStr r "name" ++ " already registered"] } := by
  constructor
  · simp [registerWebComponent, h1]
  · simp [runGeneratedScript, h2]

/-- A context in which `w-comp` is already registered, both in the element
registry and in a script context. -/
def c3Class : LiveDefn :=
  { props := [], template := .ast [.lit "w"], styles := "", methods := [], initialState := [] }

/-- Builder-side context for the C3 witness. -/
def c3State : BuilderState := { registry := [], elements := [("w-comp", c3Class)] }

/-- The record a second registration of `w-comp` would use. -/
def c3Record : RecordMap := [("name", .str "w-comp"), ("template", .str "x"), ("props", .strList [])]

/-- Script-side context for the C3 witness. -/
def c3Ctx : ScriptCtx :=
  { elements := [("w-comp", scriptClassOf c3Record)], globals := [], warnings := [] }

/-- Witness for C3 at the concrete contexts above. -/
theorem claim3_second_registration_noop_witness :
    registerWebComponent "w-comp" c3Class c3State = c3State ∧
    runGeneratedScript c3Record c3Ctx =
      { c3Ctx with warnings :=
          c3Ctx.warnings ++ ["Component " ++ recStr c3Record "name" ++ " already registered"] } :=
  claim3_second_registration_noop "w-comp" c3Class c3State c3Record c3Ctx
    (by decide) (by decide)

/-- C5 (confirmed): with no `apiEndpoint` configured, a cloud export of a
defined component and an import from a bare name (no URL scheme, no JSON
brace) both fail with the configuration error, and the trace of issued
network requests is empty — the checks at source lines 75 and 107 run
before any `fetch`. -/
theorem claim5_cloud_requires_endpoint
    (cfg : Config) (s : BuilderState) (name bare : String) (r : RecordMap)
    (now : Int) (net : NetCall → RecordMap) (parse : String → RecordMap)
    (hend : cfg.apiEndpoint = none)
    (hreg : lookupKV s.registry name = some r)
    (hb1 : strStartsWith bare "http" = false)
    (hb2 : strStartsWith bare "\x7b" = false) :
    exportOp cfg s name { type := some "cloud" } now net =
      (Except.error "API endpoint not configured", []) ∧
    importOp cfg s (.txt bare) parse net =
      (Except.error "API endpoint not configured", s, []) := by
  constructor
  · simp [exportOp, hreg, hend]
  · simp [importOp, hb1, hb2, hend]

/-- Witness for C5: a builder with one defined component and no endpoint. -/
theorem claim5_cloud_requires_endpoint_witness :
    exportOp { apiEndpoint := none, localRegistry := true } c4State "x-comp"
        { type := some "cloud" } 7 (fun _ => []) =
      (Except.error "API endpoint not configured", []) ∧
    importOp { apiEndpoint := none, localRegistry := true } c4State (.txt "x-comp")
        (fun _ => []) (fun _ => []) =
      (Except.error "API endpoint not configured", c4State, []) :=
  claim5_cloud_requires_endpoint { apiEndpoint := none, localRegistry := true }
    c4State "x-comp" "x-comp" c4Record 7 (fun _ => []) (fun _ => [])
    (by decide) (by decide) (by decide) (by decide)

/-- C6 (confirmed): exporting a name absent from the Definition Store fails
with the not-found error carrying the requested name, whatever the export
options, and no network request is issued (the lookup at source lines 57-60
precedes everything else). -/
theorem claim6_export_absent_notfound
    (cfg : Config) (s : BuilderState) (name : String) (opts : ExportOpts) (now : Int)
    (net : NetCall → RecordMap)
    (h : lookupKV s.registry name = none) :
    exportOp cfg s name opts now net =
      (Except.error ("Component " ++ name ++ " not found"), []) := by
  simp [exportOp, h]

/-- Witness for C6: exporting the never-defined `ghost-comp`, even with
cloud options on a fully configured builder. -/
theorem claim6_export_absent_notfound_witness :
    exportOp { apiEndpoint := some "https://api.example.com", localRegistry := true }
        emptyState "ghost-comp" { type := some "cloud" } 7 (fun _ => []) =
      (Except.error "Component ghost-comp not found", []) :=
  claim6_export_absent_notfound
    { apiEndpoint := some "https://api.example.com", localRegistry := true }
    emptyState "ghost-comp" { type := some "cloud" } 7 (fun _ => []) (by decide)

/-- C10 (confirmed): `define` on a definition with no `template` key throws
while reading `definition.template.toString()` (source line 34), before the
store write at line 42 and the registration at line 45: the state after the
call is the input state, so a prior record under the name is unchanged and
no element is registered. -/
theorem claim10_define_missing_template_pure
    (name : String) (defn : RecordMap) (now : Int) (s : BuilderState)
    (h : lookupKV defn "template" = none) :
    defineOp name defn now s =
      (Except.error "TypeError: Cannot read properties of undefined (reading toString)", s) := by
  simp [defineOp, h]

/-- Witness for C10: defining `x-comp` with a styles-only definition in a
context that already holds an unrelated record leaves that context as it
was. -/
theorem claim10_define_missing_template_pure_witness :
    defineOp "x-comp" [("styles", .str "div\x7bcolor:red\x7d")] 7 c4State =
      (Except.error "TypeError: Cannot read properties of undefined (reading toString)",
        c4State) :=
  claim10_define_missing_template_pure "x-comp" [("styles", .str "div\x7bcolor:red\x7d")]
    7 c4State (by decide)

/-- C7 (confirmed): a `define` whose definition supplies only `template`
produces a record with `version = "1.0.0"`, `props = []`, `styles = ""`,
`methods = \x7b\x7d` and `events = []`, for every name, template, logical
time and prior context. -/
theorem claim7_define_defaults (name : String) (t : List TPart) (now : Int) (s : BuilderState) :
    ∃ r s2,
      defineOp name [("template", .tmpl t)] now s = (Except.ok r, s2) ∧
      lookupKV r "version" = some (.str "1.0.0") ∧
      lookupKV r "props" = some (.strList []) ∧
      lookupKV r "styles" = some (.str "") ∧
      lookupKV r "methods" = some (.strMap []) ∧
      lookupKV r "events" = some (.strList []) :=
  ⟨_, _, rfl, rfl, rfl, rfl, rfl, rfl⟩

/-- C8 (confirmed): on an attribute-change notification whose new value
differs from the old, the element updates that prop and performs exactly
one full re-render — the shadow content becomes the style block followed by
the template applied to the updated props, and the render counter advances
by one; a notification carrying the same value changes nothing. -/
theorem claim8_attribute_change_rerender
    (e : ElementInst) (nm oldV newV html : String)
    (hc : callTemplate e.defn.template (setKV e.props nm newV) e.state = Except.ok html) :
    (oldV ≠ newV →
      attributeChangedCallback e nm oldV newV =
        Except.ok { e with
          props := setKV e.props nm newV,
          shadowHTML :=
            (if e.defn.styles ≠ "" then "<style>" ++ e.defn.styles ++ "</style>" else "") ++ html,
          renderCount := e.renderCount + 1 }) ∧
    (oldV = newV → attributeChangedCallback e nm oldV newV = Except.ok e) := by
  constructor
  · intro h
    simp [attributeChangedCallback, h, renderInst, hc, Bind.bind, Except.bind]
  · intro h
    simp [attributeChangedCallback, h]

/-- Witness for C8: a connected element with prop `title = "A"` receiving
an update to `"B"` re-renders once showing `B`; the conclusion for equal
values applies to the (vacuous) case there. -/
theorem claim8_attribute_change_rerender_witness :
    ("A" : String) ≠ "B" ∧
    attributeChangedCallback
        { defn := { props := ["title"], template := .ast c1Tmpl, styles := "",
                    methods := [], initialState := [] },
          props := [("title", "A")], state := [], shadowHTML := "<div>A</div>",
          renderCount := 1 } "title" "A" "B" =
      Except.ok
        { defn := { props := ["title"], template := .ast c1Tmpl, styles := "",
                    methods := [], initialState := [] },
          props := [("title", "B")], state := [], shadowHTML := "<div>B</div>",
          renderCount := 2 } :=
  ⟨by decide,
    (claim8_attribute_change_rerender
      { defn := { props := ["title"], template := .ast c1Tmpl, styles := "",
                  methods := [], initialState := [] },
        props := [("title", "A")], state := [], shadowHTML := "<div>A</div>",
        renderCount := 1 } "title" "A" "B" "<div>B</div>" (by decide)).1 (by decide)⟩

/-- C9 counterexample: on `"a--b"` the code's regex keeps the hyphen whose
follower is not a word character (`toPascalCase "a--b" = "A-B"`), while
splitting on hyphens, capitalizing and concatenating gives `"AB"` — so the
derivation is not literally split-capitalize-concatenate on all names. -/
theorem claim9_counterexample :
    toPascalCase "a--b" = "A-B" ∧ pascalSpec "a--b" = "AB" ∧
    toPascalCase "a--b" ≠ pascalSpec "a--b" := by
  decide

/-- A word character is not a hyphen. -/
theorem wordChar_ne_hyphen {c : Char} (h : wordChar c = true) : c ≠ '-' := by
  intro he
  subst he
  exact absurd h (by decide)

/-- Unfolding `pcTail` on a non-hyphen head. -/
theorem pcTail_cons_of_ne (c : Char) (rest : List Char) (h : c ≠ '-') :
    pcTail (c :: rest) = c :: pcTail rest := by
  rw [pcTail.eq_def]
  simp [h]

/-- Unfolding `pcTail` on a hyphen followed by a word character. -/
theorem pcTail_hyphen_word (c : Char) (rest : List Char) (h : wordChar c = true) :
    pcTail ('-' :: c :: rest) = c.toUpper :: pcTail rest := by
  rw [pcTail.eq_def]
  simp [h]

/-- `pcTail` passes a hyphen-free block through unchanged. -/
theorem pcTail_append_word (l m : List Char) (h : ∀ c ∈ l, wordChar c = true) :
    pcTail (l ++ m) = l ++ pcTail m := by
  induction l with
  | nil => simp
  | cons c l ih =>
    have hc : c ≠ '-' := wordChar_ne_hyphen (h c (by simp))
    simp only [List.cons_append, pcTail_cons_of_ne c _ hc]
    rw [ih (fun d hd => h d (by simp [hd]))]

/-- `pcTail` on the glued tail `-seg₁-seg₂...` capitalizes each segment's
first letter and drops each hyphen. -/
theorem pcTail_glued (segs : List (List Char))
    (h : ∀ seg ∈ segs, seg ≠ [] ∧ ∀ c ∈ seg, wordChar c = true) :
    pcTail (List.flatten (segs.map (fun seg => '-' :: seg))) =
      List.flatten (segs.map capFirst) := by
  induction segs with
  | nil => rfl
  | cons seg rest ih =>
    obtain ⟨hne, hw⟩ := h seg (by simp)
    match seg, hne with
    | c :: cs, _ =>
      have h1 : wordChar c = true := hw c (by simp)
      simp only [List.map_cons, List.flatten_cons, List.cons_append]
      rw [pcTail_hyphen_word c _ h1,
        pcTail_append_word cs _ (fun d hd => hw d (by simp [hd])),
        ih (fun sg hsg => h sg (by simp [hsg]))]
      simp [capFirst]

/-- `List.intercalate` with a hyphen separator, unfolded to the head
segment followed by the glued tail. -/
theorem intercalate_hyphen_eq (seg : List Char) (rest : List (List Char)) :
    List.intercalate ['-'] (seg :: rest) =
      seg ++ List.flatten (rest.map (fun sg => '-' :: sg)) := by
  induction rest generalizing seg with
  | nil => simp [List.intercalate]
  | cons s2 rest ih =>
    have ih2 := ih s2
    simp only [List.intercalate, List.intersperse_cons_cons, List.flatten_cons] at ih2 ⊢
    rw [ih2]
    simp

/-- C9 amended: for names made of nonempty word-character segments joined
by single hyphens — every well-formed custom-element name — the regex of
`toPascalCase` does split on hyphens, upper-case each segment's first
letter and concatenate; in particular the three claimed example values
hold. -/
theorem claim9_toPascalCase_kebab (segs : List (List Char)) (hne : segs ≠ [])
    (h : ∀ seg ∈ segs, seg ≠ [] ∧ ∀ c ∈ seg, wordChar c = true) :
    toPascalCase (String.mk (List.intercalate ['-'] segs)) =
      String.mk (List.flatten (segs.map capFirst)) ∧
    toPascalCase "my-component" = "MyComponent" ∧
    toPascalCase "test-component-name" = "TestComponentName" ∧
    toPascalCase "simple" = "Simple" := by
  refine ⟨?_, by decide, by decide, by decide⟩
  match segs, hne with
  | seg :: rest, _ =>
    obtain ⟨hsne, hw⟩ := h seg (by simp)
    match seg, hsne with
    | c :: cs, _ =>
      have h1 : wordChar c = true := hw c (by simp)
      rw [intercalate_hyphen_eq]
      show String.mk (pcStart (((c :: cs) ++ List.flatten (rest.map (fun sg => '-' :: sg))))) = _
      simp only [List.cons_append, pcStart, h1, if_pos]
      rw [pcTail_append_word cs _ (fun d hd => hw d (by simp [hd])),
        pcTail_glued rest (fun sg hsg => h sg (by simp [hsg]))]
      simp [capFirst]

/-- Witness for C9's amended theorem at the segments of `"my-component"`. -/
theorem claim9_toPascalCase_kebab_witness :
    toPascalCase
        (String.mk (List.intercalate ['-']
          [['m', 'y'], ['c', 'o', 'm', 'p', 'o', 'n', 'e', 'n', 't']])) =
      String.mk (List.flatten
        ([['m', 'y'], ['c', 'o', 'm', 'p', 'o', 'n', 'e', 'n', 't']].map capFirst)) ∧
    toPascalCase "my-component" = "MyComponent" ∧
    toPascalCase "test-component-name" = "TestComponentName" ∧
    toPascalCase "simple" = "Simple" :=
  claim9_toPascalCase_kebab [['m', 'y'], ['c', 'o', 'm', 'p', 'o', 'n', 'e', 'n', 't']]
    (by decide) (by decide)
